import Mathlib

/-!
Verification of the chaos physics sandbox core: a shallow embedding of the
multiplayer sync layer (src/lib/multiplayer/sync.js), the tool executor and
object factory (tools/objects modules), the chaos orchestrator (chaos module),
the black-hole updater (special-objects module) and the engine facade
(src/lib/physics/engine.js), together with proofs of the specification claims.

Modelling conventions:
- JavaScript numbers are modelled as exact rationals (ℚ).
- JavaScript falsiness of `x || alt` is modelled explicitly (`none`, `0` and
  `""` fall through to the alternative).
- `Math.random()` draws are threaded as an explicit stream of rationals.
- Per-body distances (`Vector.magnitude`) are either passed as an explicit
  scalar parameter (for the per-body force formulas) or compared through
  squared distances (`withinDist`), which is equivalent to the source's
  `magnitude(sub a b) < c` comparison for the real square root.
-/

/-! ## JavaScript falsy-or helpers -/

/-- JS `v || alt` for an optional number: `undefined`/`null` and `0` fall
through to `alt`. -/
def jsFalsyOr (v : Option ℚ) (alt : ℚ) : ℚ :=
  match v with
  | none => alt
  | some x => if x = 0 then alt else x

/-- JS `v || alt` for a plain number: `0` falls through to `alt`. -/
def jsFalsyOrQ (v alt : ℚ) : ℚ :=
  if v = 0 then alt else v

/-- JS `v || alt` for an optional string: `null` and `""` fall through. -/
def jsFalsyOrS (v : Option String) (alt : String) : String :=
  match v with
  | none => alt
  | some s => if s = "" then alt else s

/-! ## Planar helpers -/

/-- Squared Euclidean distance between two points. -/
def dist2 (a b : ℚ × ℚ) : ℚ :=
  (a.1 - b.1) ^ 2 + (a.2 - b.2) ^ 2

/-- Squared magnitude of a vector. -/
def mag2 (v : ℚ × ℚ) : ℚ :=
  v.1 ^ 2 + v.2 ^ 2

/-- `Vector.magnitude (Vector.sub a b) < c`, expressed over squared
distances (equivalent for the real square root: `√d < c ↔ 0 < c ∧ d < c²`
since `√d ≥ 0`). -/
def withinDist (a b : ℚ × ℚ) (c : ℚ) : Bool :=
  decide (0 < c ∧ dist2 a b < c ^ 2)

/-- `w` points along the ray from the origin through `v` (a nonnegative
multiple of `v`). -/
def alongRay (v w : ℚ × ℚ) : Prop :=
  ∃ k : ℚ, 0 ≤ k ∧ w = (k * v.1, k * v.2)

/-! ## Multiplayer sync layer (sync.js) -/

/-- Wire-level sync event: `{ type, timestamp, senderId, data }`.  The
`data` payload is opaque to the dispatcher and modelled as a string. -/
structure SyncEvent where
  type : String
  timestamp : ℕ
  senderId : String
  data : String
  deriving Repr, DecidableEq

/-- The five handler slots of the handler table passed to
`handleSyncEvent`. -/
inductive HandlerSlot where
  | onSpawn
  | onForce
  | onTool
  | onGravity
  | onCursor
  deriving Repr, DecidableEq

/-- Observable outcome of one `handleSyncEvent` call: which handler slot
(if any) was invoked with `(event.data, event.senderId)`, and whether the
unknown-type warning was logged. -/
structure SyncOutcome where
  invoked : Option HandlerSlot
  warned : Bool
  deriving Repr, DecidableEq

/-- The five recognized sync event type tags (`SYNC_EVENTS` in
constants.js). -/
def knownSyncTypes : List String :=
  ["spawn", "force", "tool", "gravity", "cursor"]

/-- `getPlayerId()`: returns `localPlayerId || player_<Date.now()>`. -/
def getPlayerId (localPlayerId : Option String) (now : ℕ) : String :=
  jsFalsyOrS localPlayerId ("player_" ++ toString now)

/-- `handleSyncEvent(event, handlers)`: drops self-echo events
(`event.senderId === getPlayerId()`), then dispatches on `event.type` to
the matching present handler; an unrecognized type logs a warning.
`present` records which handler slots are populated in the handler table. -/
def handleSyncEvent (localPlayerId : Option String) (now : ℕ)
    (event : SyncEvent) (present : HandlerSlot → Bool) : SyncOutcome :=
  if event.senderId = getPlayerId localPlayerId now then
    ⟨none, false⟩
  else if event.type = "spawn" then
    ⟨if present .onSpawn then some .onSpawn else none, false⟩
  else if event.type = "force" then
    ⟨if present .onForce then some .onForce else none, false⟩
  else if event.type = "tool" then
    ⟨if present .onTool then some .onTool else none, false⟩
  else if event.type = "gravity" then
    ⟨if present .onGravity then some .onGravity else none, false⟩
  else if event.type = "cursor" then
    ⟨if present .onCursor then some .onCursor else none, false⟩
  else
    ⟨none, true⟩

/-! ## Tool executor: per-body force computations (tools module)

`toolPush` and `toolExplode` iterate over all world bodies; for a single
body the effect depends only on the body's static flag and its distance
from the tool position (plus, for push, the caller-supplied direction).
The functions below are the loop body for one world body, with the
distance `d = Vector.magnitude(Vector.sub(body.position, position))`
passed explicitly. -/

/-- Force applied by `toolPush(position, direction, force)` to one body at
distance `d` from the push position; `none` when no force is applied.
Radius is the hard-coded `120`; the force is
`direction * force * (1 - d/120) * 1.5`, identical for every affected
body (it does not depend on the body's bearing from the push position). -/
def toolPushForceOn (direction : ℚ × ℚ) (force : ℚ) (isStatic : Bool)
    (d : ℚ) : Option (ℚ × ℚ) :=
  if isStatic then none
  else if d < 120 then
    some (direction.1 * force * (1 - d / 120) * (3 / 2),
          direction.2 * force * (1 - d / 120) * (3 / 2))
  else none

/-- Magnitude of the force applied by `toolExplode(position, force, radius)`
to one non-static body at distance `d > 0` from the center: the source
applies `normalise(dir) * force * (1 - d/radius) * 1.2`, whose magnitude is
`force * (1 - d/radius) * 1.2` for `force ≥ 0` (the normalised direction is
a unit vector); outside `0 < d < radius`, or for a static body, no force. -/
def toolExplodeForceMag (force radius : ℚ) (isStatic : Bool) (d : ℚ) : ℚ :=
  if isStatic then 0
  else if 0 < d ∧ d < radius then force * (1 - d / radius) * (12 / 10)
  else 0

/-! ## Tool executor: toolScale (tools module) -/

/-- The state of one dynamic body that matters to `toolScale`: the static
flag and the tracked cumulative scale (`body.customScale`, initially
unset). -/
structure ScaleBody where
  isStatic : Bool
  customScale : Option ℚ
  deriving Repr, DecidableEq

/-- Core of `toolScale` once a body has been found at the cursor position:
returns the result (`none` models the JS `null` return), the updated body,
and whether `scaleBody` was invoked.  Factor is `1.5` for grow, `1/1.5`
for shrink; the new cumulative scale is accepted only inside `[0.3, 3]`. -/
def toolScaleBody (body : ScaleBody) (grow : Bool) :
    Option ℚ × ScaleBody × Bool :=
  if body.isStatic then (none, body, false)
  else
    let factor : ℚ := if grow then 3 / 2 else 2 / 3
    let currentScale := jsFalsyOr body.customScale 1
    let newScale := currentScale * factor
    if 3 / 10 ≤ newScale ∧ newScale ≤ 3 then
      (some newScale, { body with customScale := some newScale }, true)
    else
      (none, body, false)

/-- `toolScale(position, grow)`: `getBodyAtPosition` may find no body
(`none`), in which case nothing happens and `null` is returned. -/
def toolScale (found : Option ScaleBody) (grow : Bool) :
    Option ℚ × Option ScaleBody × Bool :=
  match found with
  | none => (none, none, false)
  | some body =>
      let r := toolScaleBody body grow
      (r.1, some r.2.1, r.2.2)

/-- Repeated `toolScale` calls on the same body (each call's grow flag
taken from the list). -/
def runScaleCalls (body : ScaleBody) (calls : List Bool) : ScaleBody :=
  calls.foldl (fun acc g => (toolScaleBody acc g).2.1) body

/-- The cumulative-scale window enforced by `toolScale`. -/
def scaleInRange (s : ℚ) : Prop :=
  3 / 10 ≤ s ∧ s ≤ 3

/-! ## Chaos orchestrator: master toggle and loop timers (chaos module)

The three repeating loops (object flood, sudden rules, explosion-chain
watcher) each own one interval handle.  `setInterval`/`clearInterval` are
modelled by an allocator of positive timer ids plus the list of currently
active repeating timers.  World side effects of the loop bodies and of
rule application (gravity changes, spawns) happen in the physics engine
and are outside this timer/flag state. -/

/-- Module-level mutable state of the chaos manager: the four flags, the
three interval handles, the timer-id allocator and the set of live
repeating timers. -/
structure ChaosSt where
  chaosEnabled : Bool
  objectFloodEnabled : Bool
  suddenRulesEnabled : Bool
  autoExplodeEnabled : Bool
  floodInterval : Option ℕ
  rulesInterval : Option ℕ
  explosionCheckInterval : Option ℕ
  nextTimer : ℕ
  activeTimers : List ℕ
  deriving Repr, DecidableEq

/-- State at module load: chaos disabled, no handles, no live timers.
Timer ids start at 1 (browser interval ids are positive, so a stored
handle is always truthy). -/
def initChaosSt : ChaosSt :=
  ⟨false, false, false, false, none, none, none, 1, []⟩

/-- `setInterval(...)`: allocate a fresh repeating timer. -/
def setIntervalM (s : ChaosSt) : ℕ × ChaosSt :=
  (s.nextTimer,
   { s with nextTimer := s.nextTimer + 1,
            activeTimers := s.activeTimers ++ [s.nextTimer] })

/-- `clearInterval(t)`: deactivate a repeating timer. -/
def clearIntervalM (t : ℕ) (s : ChaosSt) : ChaosSt :=
  { s with activeTimers := s.activeTimers.filter (fun x => x ≠ t) }

/-- `startObjectFlood`: clear any previous flood interval, raise the flag,
install a fresh interval. -/
def startObjectFlood (s : ChaosSt) : ChaosSt :=
  let s := match s.floodInterval with
    | some t => clearIntervalM t s
    | none => s
  let s := { s with objectFloodEnabled := true }
  let r := setIntervalM s
  { r.2 with floodInterval := some r.1 }

/-- `stopObjectFlood`. -/
def stopObjectFlood (s : ChaosSt) : ChaosSt :=
  let s := match s.floodInterval with
    | some t => { clearIntervalM t s with floodInterval := none }
    | none => s
  { s with objectFloodEnabled := false }

/-- `startSuddenRules`: clear any previous rules interval, raise the flag,
apply a first rule immediately (world effect, outside this state), install
a fresh interval. -/
def startSuddenRules (s : ChaosSt) : ChaosSt :=
  let s := match s.rulesInterval with
    | some t => clearIntervalM t s
    | none => s
  let s := { s with suddenRulesEnabled := true }
  let r := setIntervalM s
  { r.2 with rulesInterval := some r.1 }

/-- `stopSuddenRules` (the gravity reset is a world effect, outside this
state). -/
def stopSuddenRules (s : ChaosSt) : ChaosSt :=
  let s := match s.rulesInterval with
    | some t => { clearIntervalM t s with rulesInterval := none }
    | none => s
  { s with suddenRulesEnabled := false }

/-- `startExplosionChain`: clear any previous watcher interval, raise the
flag, install a fresh 100ms polling interval. -/
def startExplosionChain (s : ChaosSt) : ChaosSt :=
  let s := match s.explosionCheckInterval with
    | some t => clearIntervalM t s
    | none => s
  let s := { s with autoExplodeEnabled := true }
  let r := setIntervalM s
  { r.2 with explosionCheckInterval := some r.1 }

/-- `stopExplosionChain`. -/
def stopExplosionChain (s : ChaosSt) : ChaosSt :=
  let s := match s.explosionCheckInterval with
    | some t => { clearIntervalM t s with explosionCheckInterval := none }
    | none => s
  { s with autoExplodeEnabled := false }

/-- `enableChaos()`: raise the master flag and start all three loops. -/
def enableChaos (s : ChaosSt) : ChaosSt :=
  startExplosionChain (startSuddenRules (startObjectFlood
    { s with chaosEnabled := true }))

/-- `disableChaos()`: lower the master flag and stop all three loops. -/
def disableChaos (s : ChaosSt) : ChaosSt :=
  stopExplosionChain (stopSuddenRules (stopObjectFlood
    { s with chaosEnabled := false }))

/-- `toggleChaos()`: flip between enabled and disabled and report the
resulting master flag. -/
def toggleChaos (s : ChaosSt) : Bool × ChaosSt :=
  let s' := if s.chaosEnabled then disableChaos s else enableChaos s
  (s'.chaosEnabled, s')

/-! ## Explosion chain reactions (chaos module: explodeBody)

`explodeBody(body)` removes the body and, 50ms later, rescans the world
for explosive bodies within `0.8 * radius` of the explosion point, each of
which is scheduled to explode after a further `100 + Math.random() * 200`
milliseconds.  We model the JS timer queue explicitly: timers fire in
deadline order, ties broken by scheduling order.  Body positions are held
fixed during the cascade (the motion imparted by `toolExplode`'s forces is
integrated by the external physics engine, outside this core), and the
visual-effect callbacks are elided. -/

/-- A world body as seen by the chain-reaction code: identity, position,
the explosive/static flags, and the optional `explosionRadius` field
(`explodeBody` reads it as `body.explosionRadius || 200`). -/
structure CBody where
  id : ℕ
  pos : ℚ × ℚ
  isExplosive : Bool
  isStatic : Bool
  eRadius : Option ℚ
  deriving Repr, DecidableEq

/-- A pending timer callback: either a scheduled `explodeBody(other)`
(capturing the body's identity, position and radius) or the 50ms-delayed
rescan around a finished explosion. -/
inductive CTask where
  | explode (id : ℕ) (pos : ℚ × ℚ) (radius : ℚ)
  | rescan (pos : ℚ × ℚ) (radius : ℚ)
  deriving Repr, DecidableEq

/-- A timer-queue entry: absolute deadline plus callback. -/
structure CEvent where
  time : ℚ
  task : CTask
  deriving Repr, DecidableEq

/-- State of the cascade: live world bodies, pending timers in scheduling
order, the log of explosions that have occurred (body ids, in order, with
multiplicity) and the position in the random stream. -/
structure ChainState where
  world : List CBody
  queue : List CEvent
  explosions : List ℕ
  rctr : ℕ
  deriving Repr, DecidableEq

/-- The rescan loop body: walk the world in order and, for every explosive
non-static body within `0.8 * radius` of the explosion point, schedule an
`explodeBody` callback at `t + 100 + rand * 200`; returns the scheduled
events (in world order) and the advanced random-stream position. -/
def scheduleRescans (rand : ℕ → ℚ) (t : ℚ) (pos : ℚ × ℚ) (radius : ℚ) :
    List CBody → ℕ → List CEvent × ℕ
  | [], ctr => ([], ctr)
  | b :: rest, ctr =>
      if b.isExplosive && !b.isStatic &&
          withinDist b.pos pos (radius * (8 / 10)) then
        let r := scheduleRescans rand t pos radius rest (ctr + 1)
        (⟨t + 100 + rand ctr * 200,
          .explode b.id b.pos (jsFalsyOr b.eRadius 200)⟩ :: r.1, r.2)
      else
        scheduleRescans rand t pos radius rest ctr

/-- Execute one fired timer at absolute time `t`.  An `explode` callback
logs the explosion, removes the body from the world (a no-op if it was
already removed — the source performs no liveness check) and schedules the
rescan 50ms later; a `rescan` callback schedules the chain explosions. -/
def execChainTask (rand : ℕ → ℚ) (t : ℚ) (task : CTask) (s : ChainState) :
    ChainState :=
  match task with
  | .explode bid pos radius =>
      { world := s.world.filter (fun b => b.id != bid),
        queue := s.queue ++ [⟨t + 50, .rescan pos radius⟩],
        explosions := s.explosions ++ [bid],
        rctr := s.rctr }
  | .rescan pos radius =>
      let r := scheduleRescans rand t pos radius s.world s.rctr
      { s with queue := s.queue ++ r.1, rctr := r.2 }

/-- Pop the next timer to fire: earliest deadline, ties broken by
scheduling order (JS timer semantics). -/
def popEarliest : List CEvent → Option (CEvent × List CEvent)
  | [] => none
  | e :: rest =>
      match popEarliest rest with
      | none => some (e, [])
      | some (e', rest') =>
          if e.time ≤ e'.time then some (e, rest) else some (e', e :: rest')

/-- Fire the next pending timer (identity when the queue is empty). -/
def chainStep (rand : ℕ → ℚ) (s : ChainState) : ChainState :=
  match popEarliest s.queue with
  | none => s
  | some (e, rest) => execChainTask rand e.time e.task { s with queue := rest }

/-- Run the timer loop for a bounded number of firings. -/
def runChain (rand : ℕ → ℚ) : ℕ → ChainState → ChainState
  | 0, s => s
  | n + 1, s => runChain rand n (chainStep rand s)

/-- A direct `explodeBody(body)` call at time `t` (the ignition of a
chain): identical to firing an explode callback for that body. -/
def explodeBody (rand : ℕ → ℚ) (t : ℚ) (b : CBody) (s : ChainState) :
    ChainState :=
  execChainTask rand t (.explode b.id b.pos (jsFalsyOr b.eRadius 200)) s

/-- The `i`-th body of a parametric explosive chain: explosive, dynamic,
with explosion radius `R`, placed at `p i`. -/
def chainBody (p : ℕ → ℚ × ℚ) (R : ℚ) (i : ℕ) : CBody :=
  ⟨i, p i, true, false, some R⟩

/-- Chain bodies with ids `a, a+1, ..., a+n-1`. -/
def chainWorld (p : ℕ → ℚ × ℚ) (R : ℚ) (a n : ℕ) : List CBody :=
  (List.range' a n).map (chainBody p R)

/-! ## Black holes: per-body pull (special-objects module) -/

/-- The per-body outcome of one `updateBlackHoles` tick for one live black
hole: the body's new velocity, new angular velocity, and whether it is now
in the black hole's consumed set. -/
structure BHResult where
  velocity : ℚ × ℚ
  angularVelocity : ℚ
  consumed : Bool
  deriving Repr, DecidableEq

/-- The body of the `bodies.forEach` loop in `updateBlackHoles`, for one
world body and one active black hole.  `d` is the distance from the body
to the black hole center, `u` the unit vector from the body toward the
center (`normalise(sub bhPos bodyPos)`), `r01` the `Math.random()` draw
used for the spin perturbation, and `consumed` whether the body is already
in `bh.consumedBodies`.  Static bodies and bodies labelled `blackhole` are
skipped; a body within 20 units is frozen and consumed; otherwise the pull
`min(8, 400/d) * 0.3` is added to the velocity along `u`, a body within 80
units is consumed, and a body within 250 units gets the random spin
`(r01 - 0.5) * 0.15` added to its angular velocity. -/
def updateBlackHoleBody (isStatic isBlackHoleLabel : Bool) (d : ℚ)
    (u vel : ℚ × ℚ) (angVel r01 : ℚ) (consumed : Bool) : BHResult :=
  if isStatic || isBlackHoleLabel then ⟨vel, angVel, consumed⟩
  else if d < 20 then ⟨(0, 0), angVel, true⟩
  else
    let pullStrength := min 8 (400 / d)
    let newVel := (vel.1 + u.1 * pullStrength * (3 / 10),
                   vel.2 + u.2 * pullStrength * (3 / 10))
    let consumed' := consumed || decide (d < 80)
    let angVel' := if d < 250 then angVel + (r01 - 1 / 2) * (15 / 100)
                   else angVel
    ⟨newVel, angVel', consumed'⟩

/-! ## Engine facade: clearWorld (engine.js) -/

/-- A body as the engine facade sees it: reference identity (modelled by a
numeric id), the static flag and the label. -/
structure EBody where
  id : ℕ
  isStatic : Bool
  label : String
  deriving Repr, DecidableEq

/-- `World.remove(world, toRemove)`: remove every listed body (by
reference identity) from the world, preserving the order of the rest. -/
def worldRemoveAll (w toRemove : List EBody) : List EBody :=
  w.filter (fun b => !(toRemove.any (fun r => r.id == b.id)))

/-- `clearWorld()`: a no-op when no engine is initialized; otherwise
removes the non-static bodies from the world. -/
def clearWorld : Option (List EBody) → Option (List EBody)
  | none => none
  | some w => some (worldRemoveAll w (w.filter (fun b => !b.isStatic)))

/-! ## Object factory and toolSpawn (objects/tools modules) -/

/-- The option-override record accepted by the object creators (the
`options` argument, spread over the archetype config). -/
structure ObjOptions where
  width : Option ℚ
  height : Option ℚ
  radius : Option ℚ
  size : Option ℚ
  friction : Option ℚ
  restitution : Option ℚ
  density : Option ℚ
  color : Option String
  deriving Repr, DecidableEq

/-- Empty override record (`{}`). -/
def noOptions : ObjOptions :=
  ⟨none, none, none, none, none, none, none, none⟩

/-- A created body: label, position, resolved shape parameters (`width` /
`height` for rectangles, `radius` for circles and polygons), material
parameters, fill color, id, and the special flags the factory can set. -/
structure OBody where
  label : String
  x : ℚ
  y : ℚ
  width : Option ℚ
  height : Option ℚ
  radius : Option ℚ
  friction : ℚ
  restitution : ℚ
  density : ℚ
  color : String
  customId : String
  isFloaty : Bool
  isExplosive : Bool
  explosionForce : Option ℚ
  explosionRadius : Option ℚ
  deriving Repr, DecidableEq

/-- `generateId()`: `obj_<Date.now()>_<counter>`. -/
def generateId (now ctr : ℕ) : String :=
  "obj_" ++ toString now ++ "_" ++ toString ctr

/-- `createBox`: config is `{...OBJECTS.BOX, ...options}`. -/
def createBox (x y : ℚ) (opts : ObjOptions) (now ctr : ℕ) : OBody :=
  { label := "box", x := x, y := y,
    width := some (opts.width.getD 50), height := some (opts.height.getD 50),
    radius := none,
    friction := opts.friction.getD (1 / 2),
    restitution := opts.restitution.getD (3 / 10),
    density := opts.density.getD (1 / 1000),
    color := opts.color.getD "#ff6b6b",
    customId := generateId now ctr,
    isFloaty := false, isExplosive := false,
    explosionForce := none, explosionRadius := none }

/-- `createCircle`: config is `{...OBJECTS.CIRCLE, ...options}`. -/
def createCircle (x y : ℚ) (opts : ObjOptions) (now ctr : ℕ) : OBody :=
  { label := "circle", x := x, y := y,
    width := none, height := none,
    radius := some (opts.radius.getD 25),
    friction := opts.friction.getD (1 / 10),
    restitution := opts.restitution.getD (6 / 10),
    density := opts.density.getD (1 / 1000),
    color := opts.color.getD "#4ecdc4",
    customId := generateId now ctr,
    isFloaty := false, isExplosive := false,
    explosionForce := none, explosionRadius := none }

/-- `createTriangle`: a 3-gon of circumradius `config.size / 2`. -/
def createTriangle (x y : ℚ) (opts : ObjOptions) (now ctr : ℕ) : OBody :=
  { label := "triangle", x := x, y := y,
    width := none, height := none,
    radius := some (opts.size.getD 50 / 2),
    friction := opts.friction.getD (4 / 10),
    restitution := opts.restitution.getD (2 / 10),
    density := opts.density.getD (1 / 1000),
    color := opts.color.getD "#ffe66d",
    customId := generateId now ctr,
    isFloaty := false, isExplosive := false,
    explosionForce := none, explosionRadius := none }

/-- `createPlank`: config is `{...OBJECTS.PLANK, ...options}`. -/
def createPlank (x y : ℚ) (opts : ObjOptions) (now ctr : ℕ) : OBody :=
  { label := "plank", x := x, y := y,
    width := some (opts.width.getD 150), height := some (opts.height.getD 20),
    radius := none,
    friction := opts.friction.getD (8 / 10),
    restitution := opts.restitution.getD (1 / 10),
    density := opts.density.getD (2 / 1000),
    color := opts.color.getD "#95afc0",
    customId := generateId now ctr,
    isFloaty := false, isExplosive := false,
    explosionForce := none, explosionRadius := none }

/-- `createBalloon`: very light, marked floaty. -/
def createBalloon (x y : ℚ) (opts : ObjOptions) (now ctr : ℕ) : OBody :=
  { label := "balloon", x := x, y := y,
    width := none, height := none,
    radius := some (opts.radius.getD 30),
    friction := opts.friction.getD (1 / 10),
    restitution := opts.restitution.getD (8 / 10),
    density := opts.density.getD (1 / 10000),
    color := opts.color.getD "#ff9ff3",
    customId := generateId now ctr,
    isFloaty := true, isExplosive := false,
    explosionForce := none, explosionRadius := none }

/-- `createExplosive`: marked explosive, with explosion parameters from
the config. -/
def createExplosive (x y : ℚ) (opts : ObjOptions) (now ctr : ℕ) : OBody :=
  { label := "explosive", x := x, y := y,
    width := some (opts.width.getD 40), height := some (opts.height.getD 60),
    radius := none,
    friction := opts.friction.getD (6 / 10),
    restitution := opts.restitution.getD (2 / 10),
    density := opts.density.getD (2 / 1000),
    color := opts.color.getD "#ff4757",
    customId := generateId now ctr,
    isFloaty := false, isExplosive := true,
    explosionForce := some (1 / 2), explosionRadius := some 200 }

/-- `createJelly`: very bouncy chamfered block. -/
def createJelly (x y : ℚ) (opts : ObjOptions) (now ctr : ℕ) : OBody :=
  { label := "jelly", x := x, y := y,
    width := some (opts.width.getD 60), height := some (opts.height.getD 60),
    radius := none,
    friction := opts.friction.getD (2 / 10),
    restitution := opts.restitution.getD (9 / 10),
    density := opts.density.getD (8 / 10000),
    color := opts.color.getD "#7bed9f",
    customId := generateId now ctr,
    isFloaty := false, isExplosive := false,
    explosionForce := none, explosionRadius := none }

/-- `createAnvil`: trapezoid sized `config.width * 1.5 || 100` by
`config.height * 1.3 || 65`, density `config.density || 0.015`. -/
def createAnvil (x y : ℚ) (opts : ObjOptions) (now ctr : ℕ) : OBody :=
  { label := "anvil", x := x, y := y,
    width := some (jsFalsyOrQ (opts.width.getD 70 * (3 / 2)) 100),
    height := some (jsFalsyOrQ (opts.height.getD 50 * (13 / 10)) 65),
    radius := none,
    friction := opts.friction.getD (9 / 10),
    restitution := opts.restitution.getD (5 / 100),
    density := jsFalsyOr (some (opts.density.getD (1 / 100))) (15 / 1000),
    color := "#2c3e50",
    customId := generateId now ctr,
    isFloaty := false, isExplosive := false,
    explosionForce := none, explosionRadius := none }

/-- The eight archetype tags handled by `createObject`'s switch. -/
def knownObjectTypes : List String :=
  ["box", "circle", "triangle", "plank", "balloon", "explosive", "jelly",
   "anvil"]

/-- `createObject(type, x, y, options)`: switch on the type tag, falling
back to a box for any unrecognized tag. -/
def createObject (ty : String) (x y : ℚ) (opts : ObjOptions) (now ctr : ℕ) :
    OBody :=
  if ty = "box" then createBox x y opts now ctr
  else if ty = "circle" then createCircle x y opts now ctr
  else if ty = "triangle" then createTriangle x y opts now ctr
  else if ty = "plank" then createPlank x y opts now ctr
  else if ty = "balloon" then createBalloon x y opts now ctr
  else if ty = "explosive" then createExplosive x y opts now ctr
  else if ty = "jelly" then createJelly x y opts now ctr
  else if ty = "anvil" then createAnvil x y opts now ctr
  else createBox x y opts now ctr

/-- The result record `{ type, position, id }` returned by `toolSpawn`. -/
structure SpawnResult where
  type : String
  position : ℚ × ℚ
  id : String
  deriving Repr, DecidableEq

/-- `toolSpawn(type, position, options)`: create the body, add it to the
world, return the result record (for an initialized engine, whose world is
`world`). -/
def toolSpawn (ty : String) (position : ℚ × ℚ) (opts : ObjOptions)
    (now ctr : ℕ) (world : List OBody) : List OBody × SpawnResult :=
  let body := createObject ty position.1 position.2 opts now ctr
  (world ++ [body], ⟨ty, position, body.customId⟩)

/-- Counterexample configuration for the chain-reaction claim: three
explosive barrels on a line, 50 units apart, with the default explosion
radius 200 — a linear chain in which each body lies within
`0.8 * 200 = 160` units of the next. -/
def cexBody1 : CBody := ⟨1, (0, 0), true, false, some 200⟩

/-- Second barrel of the counterexample chain. -/
def cexBody2 : CBody := ⟨2, (50, 0), true, false, some 200⟩

/-- Third barrel of the counterexample chain. -/
def cexBody3 : CBody := ⟨3, (100, 0), true, false, some 200⟩

/-- A legal `Math.random()` draw sequence (every value in `[0, 1)`):
`0, 3/4, 0, 0, ...`, giving chain delays `100, 250, 100, ...` ms. -/
def cexRand : ℕ → ℚ := fun n => if n = 1 then 3 / 4 else 0

/-- The counterexample cascade: ignite barrel 1 by a direct
`explodeBody` call at time 0 with all three barrels in the world. -/
def cexStart : ChainState :=
  explodeBody cexRand 0 cexBody1 ⟨[cexBody1, cexBody2, cexBody3], [], [], 0⟩

/-! ## Theorems -/

/-- C1.  Echo suppression: once the local identifier has been set via
`setPlayerId` (to a truthy, i.e. nonempty, string), any event whose
`senderId` equals that identifier is discarded by `handleSyncEvent`
before dispatch — no handler slot is invoked (and no warning is logged),
whatever the event type, payload, timestamp, clock value or handler
table. -/
theorem handleSyncEvent_echo_suppression (pid : String) (now : ℕ)
    (event : SyncEvent) (present : HandlerSlot → Bool)
    (hpid : pid ≠ "") (hsender : event.senderId = pid) :
    handleSyncEvent (some pid) now event present = ⟨none, false⟩ := by
  have hid : getPlayerId (some pid) now = pid := by
    simp [getPlayerId, jsFalsyOrS, hpid]
  simp [handleSyncEvent, hid, hsender]

/-- C1 witness: a concrete self-echo event is dropped. -/
theorem handleSyncEvent_echo_suppression_witness :
    handleSyncEvent (some "alice") 17
      ⟨"spawn", 3, "alice", "payload"⟩ (fun _ => true) = ⟨none, false⟩ :=
  handleSyncEvent_echo_suppression "alice" 17
    ⟨"spawn", 3, "alice", "payload"⟩ (fun _ => true)
    (by decide) rfl

/-- C8 counterexample: the claim asserts that *every* received event of
unrecognized type causes a warning to be logged, but an unrecognized-type
event that is also a self-echo is discarded silently by the echo check
(which runs first): here the type `"teleport"` is none of the five
recognized types, all five handlers are present, yet `warned = false`. -/
theorem handleSyncEvent_unknown_echo_silent :
    ("teleport" ∉ knownSyncTypes) ∧
    handleSyncEvent (some "p1") 0 ⟨"teleport", 0, "p1", "d"⟩
      (fun _ => true) = ⟨none, false⟩ := by
  constructor
  · decide
  · rfl

/-- C8 (amended).  An event whose type is none of the five recognized
sync event types never invokes a handler and the call returns normally;
when the event is not suppressed as a self-echo, the unknown-type warning
is logged.  (A self-echo event of unrecognized type is discarded silently,
without the warning — see the counterexample.) -/
theorem handleSyncEvent_unknown_type_safe (localPlayerId : Option String)
    (now : ℕ) (event : SyncEvent) (present : HandlerSlot → Bool)
    (hty : event.type ∉ knownSyncTypes) :
    (handleSyncEvent localPlayerId now event present).invoked = none ∧
    (event.senderId ≠ getPlayerId localPlayerId now →
      (handleSyncEvent localPlayerId now event present).warned = true) := by
  simp only [knownSyncTypes, List.mem_cons, List.mem_singleton,
    not_or] at hty
  obtain ⟨h1, h2, h3, h4, h5, -⟩ := hty
  unfold handleSyncEvent
  by_cases hecho : event.senderId = getPlayerId localPlayerId now
  · simp [hecho]
  · simp [hecho, h1, h2, h3, h4, h5]

/-- C8 witness: a concrete foreign event of unrecognized type invokes no
handler and logs the warning. -/
theorem handleSyncEvent_unknown_type_safe_witness :
    (handleSyncEvent (some "p1") 0 ⟨"bogus", 5, "p2", "d"⟩
      (fun _ => true)).invoked = none ∧
    ("p2" ≠ getPlayerId (some "p1") 0 →
      (handleSyncEvent (some "p1") 0 ⟨"bogus", 5, "p2", "d"⟩
        (fun _ => true)).warned = true) :=
  handleSyncEvent_unknown_type_safe (some "p1") 0 ⟨"bogus", 5, "p2", "d"⟩
    (fun _ => true) (by decide)

/-- C6.  Starting from the chaos manager's initial state (chaos disabled,
no live timers), calling `toggleChaos` twice returns the chaos-enabled
flag to its original value (and the second call reports it), and leaves
all three loop interval handles null and zero active repeating timers. -/
theorem toggleChaos_double_idempotent :
    (toggleChaos (toggleChaos initChaosSt).2).2.chaosEnabled
        = initChaosSt.chaosEnabled ∧
    (toggleChaos (toggleChaos initChaosSt).2).1 = initChaosSt.chaosEnabled ∧
    (toggleChaos (toggleChaos initChaosSt).2).2.floodInterval = none ∧
    (toggleChaos (toggleChaos initChaosSt).2).2.rulesInterval = none ∧
    (toggleChaos (toggleChaos initChaosSt).2).2.explosionCheckInterval
        = none ∧
    (toggleChaos (toggleChaos initChaosSt).2).2.activeTimers = [] := by
  decide

/-- C4.  Explosion falloff law: for every non-static body at distance `d`
from a `toolExplode` center with positive force and radius, a body at or
beyond the radius receives no force; inside the radius (at positive
distance) the applied force magnitude follows the linear falloff
`force * (1 - d/radius) * 1.2` and is strictly decreasing in the
distance. -/
theorem toolExplode_falloff_law (force radius d d₁ d₂ : ℚ)
    (hf : 0 < force) (hr : 0 < radius) :
    (radius ≤ d → toolExplodeForceMag force radius false d = 0) ∧
    (0 < d → d < radius →
      toolExplodeForceMag force radius false d
        = force * (1 - d / radius) * (12 / 10)) ∧
    (0 < d₁ → d₁ < d₂ → d₂ < radius →
      toolExplodeForceMag force radius false d₂
        < toolExplodeForceMag force radius false d₁) := by
  refine ⟨?_, ?_, ?_⟩
  · intro hd
    have hnc : ¬(0 < d ∧ d < radius) := by
      rintro ⟨-, hlt⟩
      linarith
    simp [toolExplodeForceMag, hnc]
  · intro h0 hlt
    simp [toolExplodeForceMag, h0, hlt]
  · intro h1 h12 h2r
    have e1 : toolExplodeForceMag force radius false d₁
        = force * (1 - d₁ / radius) * (12 / 10) := by
      simp [toolExplodeForceMag, h1, lt_trans h12 h2r]
    have e2 : toolExplodeForceMag force radius false d₂
        = force * (1 - d₂ / radius) * (12 / 10) := by
      simp [toolExplodeForceMag, lt_trans h1 h12, h2r]
    rw [e1, e2]
    have hdiv : d₁ / radius < d₂ / radius :=
      div_lt_div_of_pos_right h12 hr
    nlinarith

/-- C4 witness: concrete evaluation at force `0.3`, radius `150`,
distances `160` (outside), and `30 < 60` (inside, decreasing). -/
theorem toolExplode_falloff_law_witness :
    ((150 : ℚ) ≤ 160 → toolExplodeForceMag (3/10) 150 false 160 = 0) ∧
    ((0 : ℚ) < 160 → (160 : ℚ) < 150 →
      toolExplodeForceMag (3/10) 150 false 160
        = 3/10 * (1 - 160 / 150) * (12 / 10)) ∧
    ((0 : ℚ) < 30 → (30 : ℚ) < 60 → (60 : ℚ) < 150 →
      toolExplodeForceMag (3/10) 150 false 60
        < toolExplodeForceMag (3/10) 150 false 30) :=
  toolExplode_falloff_law (3/10) 150 160 30 60 (by norm_num) (by norm_num)

/-- C5 counterexample: the claim asserts that `toolPush` directs the
force along the vector from the push position toward each affected body,
but the source applies the caller-supplied `direction` to every body in
radius.  Concretely, with the default push force `0.05` and direction
`(0, -1)`, a non-static body offset `(100, 0)` from the push position
(distance `100`, since `100² = dist2`) receives the force `(0, -1/80)`,
which is not a nonnegative multiple of the radial vector `(100, 0)`. -/
theorem toolPush_not_radial :
    (100 : ℚ) * 100 = dist2 (100, 0) (0, 0) ∧
    toolPushForceOn (0, -1) (1/20) false 100 = some (0, -(1/80)) ∧
    ¬ alongRay (100, 0) (0, -(1/80)) := by
  refine ⟨by norm_num [dist2], by norm_num [toolPushForceOn], ?_⟩
  rintro ⟨k, -, hk⟩
  have h1 : (0 : ℚ) = k * 100 := congrArg Prod.fst hk
  have h2 : (-(1/80) : ℚ) = k * 0 := congrArg Prod.snd hk
  have : k = 0 := by linarith
  rw [this] at h2
  norm_num at h2

/-- C5 (amended).  `toolPush` applies, to every non-static body at
distance `d < 120` from the push position, the force
`direction * force * (1 - d/120) * 1.5` along the caller-supplied
direction vector (not along the radial vector toward the body); static
bodies and bodies at distance `≥ 120` receive no force, and for a
positive force and nonzero direction the applied force magnitude is
strictly decreasing in the distance (linear falloff `1 - d/120`). -/
theorem toolPush_directional_falloff (direction : ℚ × ℚ)
    (force d d₁ d₂ : ℚ) (hf : 0 < force) (hdir : direction ≠ (0, 0)) :
    (toolPushForceOn direction force true d = none) ∧
    (120 ≤ d → toolPushForceOn direction force false d = none) ∧
    (d < 120 →
      toolPushForceOn direction force false d
        = some (direction.1 * force * (1 - d / 120) * (3 / 2),
                direction.2 * force * (1 - d / 120) * (3 / 2))) ∧
    (0 ≤ d₁ → d₁ < d₂ → d₂ < 120 →
      mag2 (direction.1 * force * (1 - d₂ / 120) * (3 / 2),
            direction.2 * force * (1 - d₂ / 120) * (3 / 2))
        < mag2 (direction.1 * force * (1 - d₁ / 120) * (3 / 2),
                direction.2 * force * (1 - d₁ / 120) * (3 / 2))) := by
  refine ⟨by simp [toolPushForceOn], ?_, ?_, ?_⟩
  · intro hd
    have hnd : ¬ d < 120 := by linarith
    simp [toolPushForceOn, hnd]
  · intro hd
    simp [toolPushForceOn, hd]
  · intro h0 h12 h2
    have hne : ¬ (direction.1 = 0 ∧ direction.2 = 0) := by
      intro hc
      exact hdir (Prod.ext hc.1 hc.2)
    have hm : 0 < mag2 direction := by
      rcases eq_or_ne direction.1 0 with hz1 | hz1
      · rcases eq_or_ne direction.2 0 with hz2 | hz2
        · exact absurd ⟨hz1, hz2⟩ hne
        · have h2pos : 0 < direction.2 ^ 2 := by positivity
          have h1nn : 0 ≤ direction.1 ^ 2 := sq_nonneg _
          simp only [mag2]
          linarith
      · have h1pos : 0 < direction.1 ^ 2 := by positivity
        have h2nn : 0 ≤ direction.2 ^ 2 := sq_nonneg _
        simp only [mag2]
        linarith
    have hq2 : d₂ / 120 < 1 := by
      rw [div_lt_one (by norm_num)]
      exact h2
    have hq12 : d₁ / 120 < d₂ / 120 :=
      div_lt_div_of_pos_right h12 (by norm_num)
    have hc2 : 0 < force * (1 - d₂ / 120) * (3 / 2) := by nlinarith
    have hcc : force * (1 - d₂ / 120) * (3 / 2)
        < force * (1 - d₁ / 120) * (3 / 2) := by nlinarith
    have hsq : (force * (1 - d₂ / 120) * (3 / 2)) ^ 2
        < (force * (1 - d₁ / 120) * (3 / 2)) ^ 2 := by nlinarith
    have hkey : 0 < mag2 direction *
        ((force * (1 - d₁ / 120) * (3 / 2)) ^ 2
          - (force * (1 - d₂ / 120) * (3 / 2)) ^ 2) :=
      mul_pos hm (by linarith)
    simp only [mag2] at hkey ⊢
    nlinarith [hkey]

/-- C5 witness: concrete evaluation of the amended push behavior with
direction `(0, -1)`, the default force `0.05`, and distances `130`
(outside), `100` (inside) and `40 < 80` (falloff). -/
theorem toolPush_directional_falloff_witness :
    (toolPushForceOn (0, -1) (1/20) true 130 = none) ∧
    ((120 : ℚ) ≤ 130 → toolPushForceOn (0, -1) (1/20) false 130 = none) ∧
    ((130 : ℚ) < 120 →
      toolPushForceOn (0, -1) (1/20) false 130
        = some ((0 : ℚ) * (1/20) * (1 - 130 / 120) * (3 / 2),
                (-1 : ℚ) * (1/20) * (1 - 130 / 120) * (3 / 2))) ∧
    ((0 : ℚ) ≤ 40 → (40 : ℚ) < 80 → (80 : ℚ) < 120 →
      mag2 ((0 : ℚ) * (1/20) * (1 - 80 / 120) * (3 / 2),
            (-1 : ℚ) * (1/20) * (1 - 80 / 120) * (3 / 2))
        < mag2 ((0 : ℚ) * (1/20) * (1 - 40 / 120) * (3 / 2),
                (-1 : ℚ) * (1/20) * (1 - 40 / 120) * (3 / 2))) :=
  toolPush_directional_falloff (0, -1) (1/20) 130 40 80 (by norm_num)
    (by simp)

/-- C7.  One `updateBlackHoles` tick, for a non-static body not labelled
`blackhole`, at distance `d` from a live black hole along unit direction
`u` (toward the center), with current velocity `vel`, angular velocity
`angVel`, spin draw `r01 ∈ [0,1)` and consumed flag `consumed`:
a body within 20 units is frozen (velocity zeroed) and consumed;
otherwise the velocity increment `u * min(8, 400/d) * 0.3` is added to the
current velocity (additive, never replacing it) and has squared magnitude
`(min(8, 400/d) * 0.3)²`, the body is consumed exactly when it was
already consumed or `d < 80`, and within 250 units the angular velocity
receives the bounded random perturbation `(r01 - 0.5) * 0.15`
(of absolute value at most `0.075`), otherwise it is untouched. -/
theorem updateBlackHoles_body_rules (d : ℚ) (u vel : ℚ × ℚ)
    (angVel r01 : ℚ) (consumed : Bool)
    (hu : mag2 u = 1) (hr0 : 0 ≤ r01) (hr1 : r01 < 1) :
    (d < 20 →
      updateBlackHoleBody false false d u vel angVel r01 consumed
        = ⟨(0, 0), angVel, true⟩) ∧
    (20 ≤ d →
      (updateBlackHoleBody false false d u vel angVel r01 consumed).velocity
        = (vel.1 + u.1 * min 8 (400 / d) * (3 / 10),
           vel.2 + u.2 * min 8 (400 / d) * (3 / 10)) ∧
      mag2 (u.1 * min 8 (400 / d) * (3 / 10),
            u.2 * min 8 (400 / d) * (3 / 10))
        = (min 8 (400 / d) * (3 / 10)) ^ 2 ∧
      (updateBlackHoleBody false false d u vel angVel r01 consumed).consumed
        = (consumed || decide (d < 80)) ∧
      (d < 250 →
        (updateBlackHoleBody false false d u vel angVel r01
            consumed).angularVelocity
          = angVel + (r01 - 1 / 2) * (15 / 100) ∧
        |(r01 - 1 / 2) * (15 / 100)| ≤ 75 / 1000) ∧
      (250 ≤ d →
        (updateBlackHoleBody false false d u vel angVel r01
            consumed).angularVelocity = angVel)) := by
  constructor
  · intro hd
    simp [updateBlackHoleBody, hd]
  · intro hd
    have hnd : ¬ d < 20 := by linarith
    refine ⟨by simp [updateBlackHoleBody, hnd], ?_, ?_, ?_, ?_⟩
    · simp only [mag2] at hu ⊢
      linear_combination (min 8 (400 / d) * (3 / 10)) ^ 2 * hu
    · simp [updateBlackHoleBody, hnd]
    · intro hd250
      refine ⟨by simp [updateBlackHoleBody, hnd, hd250], ?_⟩
      rw [abs_le]
      constructor <;> nlinarith
    · intro hd250
      have hn250 : ¬ d < 250 := by linarith
      simp [updateBlackHoleBody, hnd, hn250]

/-- C7 witness: concrete evaluation at distance `50`, unit pull direction
`(1, 0)`, velocity `(2, 3)`, spin draw `1/2`. -/
theorem updateBlackHoles_body_rules_witness :
    ((50 : ℚ) < 20 →
      updateBlackHoleBody false false 50 (1, 0) (2, 3) 0 (1/2) false
        = ⟨(0, 0), 0, true⟩) ∧
    ((20 : ℚ) ≤ 50 →
      (updateBlackHoleBody false false 50 (1, 0) (2, 3) 0 (1/2)
          false).velocity
        = ((2 : ℚ) + 1 * min 8 (400 / 50) * (3 / 10),
           (3 : ℚ) + 0 * min 8 (400 / 50) * (3 / 10)) ∧
      mag2 ((1 : ℚ) * min 8 (400 / 50) * (3 / 10),
            (0 : ℚ) * min 8 (400 / 50) * (3 / 10))
        = (min 8 (400 / (50 : ℚ)) * (3 / 10)) ^ 2 ∧
      (updateBlackHoleBody false false 50 (1, 0) (2, 3) 0 (1/2)
          false).consumed
        = (false || decide ((50 : ℚ) < 80)) ∧
      ((50 : ℚ) < 250 →
        (updateBlackHoleBody false false 50 (1, 0) (2, 3) 0 (1/2)
            false).angularVelocity
          = 0 + ((1 : ℚ)/2 - 1 / 2) * (15 / 100) ∧
        |((1 : ℚ)/2 - 1 / 2) * (15 / 100)| ≤ 75 / 1000) ∧
      ((250 : ℚ) ≤ 50 →
        (updateBlackHoleBody false false 50 (1, 0) (2, 3) 0 (1/2)
            false).angularVelocity = 0)) :=
  updateBlackHoles_body_rules 50 (1, 0) (2, 3) 0 (1/2) false
    (by norm_num [mag2]) (by norm_num) (by norm_num)

/-- Helper: one `toolScale` call keeps the tracked cumulative scale inside
`[0.3, 3]`. -/
theorem toolScaleBody_preserves_range (body : ScaleBody) (grow : Bool)
    (hb : scaleInRange (jsFalsyOr body.customScale 1)) :
    scaleInRange (jsFalsyOr (toolScaleBody body grow).2.1.customScale 1) := by
  unfold toolScaleBody
  by_cases hs : body.isStatic
  · simpa [hs] using hb
  · simp only [hs, if_false, Bool.false_eq_true]
    set ns := jsFalsyOr body.customScale 1 * (if grow then (3:ℚ)/2 else 2/3)
      with hns
    by_cases hok : 3/10 ≤ ns ∧ ns ≤ 3
    · have hpos : ns ≠ 0 := by
        have := hok.1
        intro h0
        rw [h0] at this
        norm_num at this
      simp only [hok, if_pos, if_true]
      simpa [jsFalsyOr, hpos] using hok
    · simpa [hok] using hb

/-- Helper: a rejected `toolScale` call returns `null`, does not invoke
`scaleBody`, and leaves the body unchanged. -/
theorem toolScaleBody_reject (body : ScaleBody) (grow : Bool)
    (hnull : (toolScaleBody body grow).1 = none) :
    (toolScaleBody body grow).2.2 = false ∧
    (toolScaleBody body grow).2.1 = body := by
  cases grow with
  | false =>
      by_cases hs : body.isStatic
      · unfold toolScaleBody
        simp [hs]
      · by_cases hok : (3:ℚ)/10 ≤ jsFalsyOr body.customScale 1 * (2/3) ∧
            jsFalsyOr body.customScale 1 * (2/3) ≤ 3
        · exfalso
          unfold toolScaleBody at hnull
          simp [hs, hok] at hnull
        · unfold toolScaleBody
          simp [hs, hok]
  | true =>
      by_cases hs : body.isStatic
      · unfold toolScaleBody
        simp [hs]
      · by_cases hok : (3:ℚ)/10 ≤ jsFalsyOr body.customScale 1 * (3/2) ∧
            jsFalsyOr body.customScale 1 * (3/2) ≤ 3
        · exfalso
          unfold toolScaleBody at hnull
          simp [hs, hok] at hnull
        · unfold toolScaleBody
          simp [hs, hok]

/-- C3.  Scale invariant: starting from any body whose effective tracked
cumulative scale (`customScale || 1`) lies in `[0.3, 3]` — in particular a
fresh body, whose `customScale` is unset — any sequence of `toolScale`
calls (grow or shrink) leaves the tracked cumulative scale in `[0.3, 3]`;
moreover any single call that returns `null` has not invoked `scaleBody`
and has left the body (hence its cumulative scale) unchanged. -/
theorem toolScale_cumulative_bounds (body : ScaleBody) (calls : List Bool)
    (grow : Bool) (hb : scaleInRange (jsFalsyOr body.customScale 1)) :
    scaleInRange (jsFalsyOr (runScaleCalls body calls).customScale 1) ∧
    ((toolScaleBody body grow).1 = none →
      (toolScaleBody body grow).2.2 = false ∧
      (toolScaleBody body grow).2.1 = body) := by
  refine ⟨?_, toolScaleBody_reject body grow⟩
  induction calls generalizing body with
  | nil => simpa [runScaleCalls] using hb
  | cons g rest ih =>
      have hstep := toolScaleBody_preserves_range body g hb
      simpa [runScaleCalls] using ih _ hstep

/-- C3 witness: a fresh dynamic body (unset cumulative scale), followed by
three grow calls and one shrink call, stays in range; a rejected call on
that body leaves it unchanged. -/
theorem toolScale_cumulative_bounds_witness :
    scaleInRange (jsFalsyOr
      (runScaleCalls ⟨false, none⟩ [true, true, true, false]).customScale
      1) ∧
    ((toolScaleBody ⟨false, none⟩ true).1 = none →
      (toolScaleBody ⟨false, none⟩ true).2.2 = false ∧
      (toolScaleBody ⟨false, none⟩ true).2.1 = ⟨false, none⟩) :=
  toolScale_cumulative_bounds ⟨false, none⟩ [true, true, true, false] true
    (by constructor <;> norm_num [jsFalsyOr])

/-- C9.  `clearWorld` removes exactly the non-static bodies: for a world
whose bodies are pairwise distinct references (modelled by distinct ids),
the resulting world is precisely the static bodies, in order and
unchanged; with no engine initialized the call is a no-op. -/
theorem clearWorld_removes_exactly_nonstatic (w : List EBody)
    (hids : (w.map EBody.id).Nodup) :
    clearWorld (some w) = some (w.filter (fun b => b.isStatic)) ∧
    clearWorld none = none := by
  refine ⟨?_, rfl⟩
  simp only [clearWorld, worldRemoveAll, Option.some.injEq]
  apply List.filter_congr
  intro b hb
  by_cases hstat : b.isStatic
  · rw [hstat, Bool.not_eq_true', List.any_eq_false]
    intro r hr
    rw [List.mem_filter] at hr
    intro hid0
    have hid : r.id = b.id := by simpa using hid0
    have hrb : r = b := List.inj_on_of_nodup_map hids hr.1 hb hid
    have hfalse : b.isStatic = false := by
      have h2 := hr.2
      rw [hrb] at h2
      simpa using h2
    rw [hstat] at hfalse
    exact absurd hfalse (by simp)
  · have hmem : b ∈ w.filter (fun x => !x.isStatic) := by
      rw [List.mem_filter]
      exact ⟨hb, by simp [hstat]⟩
    have hany : (w.filter (fun x => !x.isStatic)).any
        (fun r => r.id == b.id) = true := by
      rw [List.any_eq_true]
      exact ⟨b, hmem, by simp⟩
    simp [hany, hstat]

/-- C9 witness: a concrete world holding ground, two walls, a ceiling and
two dynamic bodies keeps exactly the static four. -/
theorem clearWorld_removes_exactly_nonstatic_witness :
    clearWorld (some [⟨1, true, "ground"⟩, ⟨2, true, "wall"⟩,
        ⟨3, true, "wall"⟩, ⟨4, true, "ceiling"⟩,
        ⟨5, false, "box"⟩, ⟨6, false, "circle"⟩])
      = some ([⟨1, true, "ground"⟩, ⟨2, true, "wall"⟩,
          ⟨3, true, "wall"⟩, ⟨4, true, "ceiling"⟩,
          ⟨5, false, "box"⟩, ⟨6, false, "circle"⟩].filter
            (fun b => b.isStatic)) ∧
    clearWorld none = none :=
  clearWorld_removes_exactly_nonstatic _ (by decide)

/-- C10.  `createObject` is total over type tags: any tag outside the
eight known archetypes falls back to `createBox` at the same position and
options, so `toolSpawn` succeeds for arbitrary `objectType` inputs —
it appends exactly the created (box) body to the world and returns the
`{type, position, id}` result record for it. -/
theorem createObject_fallback_box (ty : String) (x y : ℚ)
    (opts : ObjOptions) (now ctr : ℕ) (world : List OBody)
    (hty : ty ∉ knownObjectTypes) :
    createObject ty x y opts now ctr = createBox x y opts now ctr ∧
    (toolSpawn ty (x, y) opts now ctr world).1
      = world ++ [createBox x y opts now ctr] ∧
    (toolSpawn ty (x, y) opts now ctr world).2
      = ⟨ty, (x, y), (createBox x y opts now ctr).customId⟩ := by
  simp only [knownObjectTypes, List.mem_cons, List.mem_singleton,
    not_or] at hty
  obtain ⟨h1, h2, h3, h4, h5, h6, h7, h8, -⟩ := hty
  have hco : createObject ty x y opts now ctr = createBox x y opts now ctr := by
    simp [createObject, h1, h2, h3, h4, h5, h6, h7, h8]
  refine ⟨hco, ?_, ?_⟩ <;> simp [toolSpawn, hco]

/-- Helper: an empty chain segment. -/
theorem chainWorld_zero (p : ℕ → ℚ × ℚ) (R : ℚ) (a : ℕ) :
    chainWorld p R a 0 = [] := rfl

/-- Helper: peeling the first body off a chain segment. -/
theorem chainWorld_succ (p : ℕ → ℚ × ℚ) (R : ℚ) (a n : ℕ) :
    chainWorld p R a (n + 1) = chainBody p R a :: chainWorld p R (a + 1) n := by
  unfold chainWorld
  rw [List.range'_succ]
  rfl

/-- Helper: a rescan at `p a` schedules nothing over a chain segment that
starts at least two places further down the chain (all its bodies are
separated from `p a`). -/
theorem scheduleRescans_chainWorld_far (p : ℕ → ℚ × ℚ) (R : ℚ)
    (rand : ℕ → ℚ) (t : ℚ) (a : ℕ)
    (Hsep : ∀ j, a + 2 ≤ j → withinDist (p j) (p a) (R * (8 / 10)) = false) :
    ∀ m s ctr, a + 2 ≤ s →
      scheduleRescans rand t (p a) R (chainWorld p R s m) ctr = ([], ctr) := by
  intro m
  induction m with
  | zero =>
      intro s ctr hs
      rw [chainWorld_zero]
      rfl
  | succ k ih =>
      intro s ctr hs
      rw [chainWorld_succ]
      unfold scheduleRescans
      rw [show (chainBody p R s).isExplosive = true from rfl,
        show (chainBody p R s).isStatic = false from rfl,
        show (chainBody p R s).pos = p s from rfl,
        Hsep s hs]
      simp only [Bool.and_false, Bool.false_eq_true, if_false,
        Bool.not_false, Bool.and_true, Bool.true_and]
      exact ih (s + 1) ctr (by omega)

/-- Helper: removing a body id smaller than every id of a chain segment
leaves the segment untouched. -/
theorem chainWorld_filter_ne (p : ℕ → ℚ × ℚ) (R : ℚ) :
    ∀ m s bid, bid < s →
      (chainWorld p R s m).filter (fun b => b.id != bid)
        = chainWorld p R s m := by
  intro m
  induction m with
  | zero =>
      intro s bid _
      rw [chainWorld_zero]
      rfl
  | succ k ih =>
      intro s bid hlt
      rw [chainWorld_succ, List.filter_cons]
      have hne : ((chainBody p R s).id != bid) = true := by
        simp [chainBody]
        omega
      rw [hne]
      simp only [if_true]
      rw [ih (s + 1) bid (by omega)]

/-- Helper: firing the only pending timer. -/
theorem chainStep_singleton (rand : ℕ → ℚ) (w : List CBody) (e : CEvent)
    (log : List ℕ) (ctr : ℕ) :
    chainStep rand ⟨w, [e], log, ctr⟩
      = execChainTask rand e.time e.task ⟨w, [], log, ctr⟩ := rfl

/-- Helper: unfolding an explode callback. -/
theorem execChainTask_explode (rand : ℕ → ℚ) (t : ℚ) (bid : ℕ)
    (pos : ℚ × ℚ) (radius : ℚ) (s : ChainState) :
    execChainTask rand t (.explode bid pos radius) s
      = { world := s.world.filter (fun b => b.id != bid),
          queue := s.queue ++ [⟨t + 50, .rescan pos radius⟩],
          explosions := s.explosions ++ [bid],
          rctr := s.rctr } := rfl

/-- Helper: unfolding a rescan callback. -/
theorem execChainTask_rescan (rand : ℕ → ℚ) (t : ℚ) (pos : ℚ × ℚ)
    (radius : ℚ) (s : ChainState) :
    execChainTask rand t (.rescan pos radius) s
      = { s with
          queue := s.queue ++
            (scheduleRescans rand t pos radius s.world s.rctr).1,
          rctr := (scheduleRescans rand t pos radius s.world s.rctr).2 } :=
  rfl

/-- Helper: the cascade over the tail of a strictly separated chain.  With
bodies `a+1, ..., a+n` alive and exactly the 50ms rescan of the just
exploded body `a` pending, the run performs `2n+1` timer firings (one
rescan per explosion plus one explosion per body), explodes bodies
`a+1, ..., a+n` in order, each exactly once, and empties both the world
and the timer queue.  The random delays never matter because the queue
holds at most one timer at every point. -/
theorem runChain_chain_segment (p : ℕ → ℚ × ℚ) (R : ℚ) (rand : ℕ → ℚ)
    (hR : 0 < R)
    (Hadj : ∀ i, withinDist (p (i + 1)) (p i) (R * (8 / 10)) = true)
    (Hsep : ∀ i j, i + 2 ≤ j → withinDist (p j) (p i) (R * (8 / 10)) = false) :
    ∀ n a t log ctr,
      runChain rand (2 * n + 1)
        ⟨chainWorld p R (a + 1) n, [⟨t, .rescan (p a) R⟩], log, ctr⟩
      = ⟨[], [], log ++ List.range' (a + 1) n, ctr + n⟩ := by
  intro n
  induction n with
  | zero =>
      intro a t log ctr
      show runChain rand 1 _ = _
      rw [show runChain rand 1
          ⟨chainWorld p R (a + 1) 0, [⟨t, .rescan (p a) R⟩], log, ctr⟩
        = chainStep rand
          ⟨chainWorld p R (a + 1) 0, [⟨t, .rescan (p a) R⟩], log, ctr⟩
        from rfl]
      rw [chainWorld_zero, chainStep_singleton, execChainTask_rescan]
      simp [scheduleRescans, chainWorld_zero]
  | succ m ih =>
      intro a t log ctr
      have hfuel : 2 * (m + 1) + 1 = (2 * m + 1) + 1 + 1 := by ring
      rw [hfuel]
      have hRne : R ≠ 0 := ne_of_gt hR
      -- first firing: the pending rescan schedules exactly body a+1
      have hsched : scheduleRescans rand t (p a) R
          (chainWorld p R (a + 1) (m + 1)) ctr
          = ([⟨t + 100 + rand ctr * 200,
              .explode (a + 1) (p (a + 1)) R⟩], ctr + 1) := by
        rw [chainWorld_succ]
        unfold scheduleRescans
        rw [show (chainBody p R (a + 1)).isExplosive = true from rfl,
          show (chainBody p R (a + 1)).isStatic = false from rfl,
          show (chainBody p R (a + 1)).pos = p (a + 1) from rfl,
          Hadj a]
        simp only [Bool.not_false, Bool.and_true, Bool.true_and, if_true]
        rw [scheduleRescans_chainWorld_far p R rand t a
          (fun j hj => Hsep a j hj) m (a + 2) (ctr + 1) (le_refl _)]
        rw [show (chainBody p R (a + 1)).id = a + 1 from rfl,
          show (chainBody p R (a + 1)).eRadius = some R from rfl]
        simp [jsFalsyOr, hRne]
      have hstep1 : chainStep rand
          ⟨chainWorld p R (a + 1) (m + 1), [⟨t, .rescan (p a) R⟩], log, ctr⟩
          = ⟨chainWorld p R (a + 1) (m + 1),
             [⟨t + 100 + rand ctr * 200, .explode (a + 1) (p (a + 1)) R⟩],
             log, ctr + 1⟩ := by
        rw [chainStep_singleton, execChainTask_rescan]
        simp only [hsched]
        simp
      -- second firing: body a+1 explodes
      have hfilter : (chainWorld p R (a + 1) (m + 1)).filter
          (fun b => b.id != a + 1) = chainWorld p R (a + 2) m := by
        rw [chainWorld_succ, List.filter_cons]
        rw [show ((chainBody p R (a + 1)).id != a + 1) = false by
          simp [chainBody]]
        simp only [Bool.false_eq_true, if_false]
        exact chainWorld_filter_ne p R m (a + 2) (a + 1) (by omega)
      have hstep2 : chainStep rand
          ⟨chainWorld p R (a + 1) (m + 1),
           [⟨t + 100 + rand ctr * 200, .explode (a + 1) (p (a + 1)) R⟩],
           log, ctr + 1⟩
          = ⟨chainWorld p R (a + 2) m,
             [⟨t + 100 + rand ctr * 200 + 50, .rescan (p (a + 1)) R⟩],
             log ++ [a + 1], ctr + 1⟩ := by
        rw [chainStep_singleton, execChainTask_explode]
        simp only [hfilter]
        simp
      rw [runChain, hstep1, runChain, hstep2]
      rw [ih (a + 1) (t + 100 + rand ctr * 200 + 50) (log ++ [a + 1])
        (ctr + 1)]
      rw [List.append_assoc]
      rw [show [a + 1] ++ List.range' (a + 1 + 1) m
        = List.range' (a + 1) (m + 1) from (List.range'_succ (a + 1) m 1).symm]
      rw [show ctr + 1 + m = ctr + (m + 1) by omega]

/-- C2 counterexample: three explosive barrels on a line 50 units apart
(default explosion radius 200) form a linear chain in which each body lies
within `0.8 * 200 = 160` of the next; under a legal `Math.random()` delay
sequence (`0, 3/4, 0, ...`), igniting barrel 1 produces the explosion log
`[1, 2, 3, 3]` — four explosions for `N = 3` bodies, barrel 3 exploding
twice, because the rescan of barrel 2's explosion reschedules barrel 3
while barrel 3's earlier timer (from barrel 1's rescan) is still pending.
This falsifies "exactly N explosions" and "no body is exploded twice"
(all explosive bodies are still destroyed: the final world is empty). -/
theorem explodeBody_chain_double_explosion :
    (withinDist cexBody2.pos cexBody1.pos (200 * (8 / 10)) = true ∧
     withinDist cexBody3.pos cexBody2.pos (200 * (8 / 10)) = true) ∧
    (cexRand 0 = 0 ∧ cexRand 1 = 3 / 4 ∧ cexRand 2 = 0) ∧
    (runChain cexRand 8 cexStart).explosions = [1, 2, 3, 3] ∧
    (runChain cexRand 8 cexStart).world = [] := by
  refine ⟨⟨?_, ?_⟩, ⟨rfl, rfl, rfl⟩, ?_⟩
  · norm_num [withinDist, dist2, cexBody1, cexBody2]
  · norm_num [withinDist, dist2, cexBody2, cexBody3]
  · norm_num [runChain, chainStep, popEarliest, execChainTask,
      scheduleRescans, withinDist, dist2, jsFalsyOr, cexRand, cexStart,
      cexBody1, cexBody2, cexBody3, explodeBody, List.filter]

/-- C2 (amended).  For a linear chain of `N ≥ 1` explosive, non-static
bodies in which each body lies within `0.8 * radius` of the next *and*
every pair of non-consecutive bodies is at least `0.8 * radius` apart (so
each rescan sees only the next body), igniting the first body via
`explodeBody` yields exactly `N` explosions — the bodies in chain order,
each exploded exactly once — and zero explosive bodies survive, for every
admissible sequence of random chain delays.  (Without the separation
condition a body can be scheduled by two different rescans and explode
twice, as the counterexample shows; the "removed before the rescans run"
argument fails for a body whose own explosion timer has not yet fired.) -/
theorem explodeBody_chain_exact_count (p : ℕ → ℚ × ℚ) (R : ℚ)
    (rand : ℕ → ℚ) (N : ℕ) (hN : 1 ≤ N) (hR : 0 < R)
    (Hadj : ∀ i, withinDist (p (i + 1)) (p i) (R * (8 / 10)) = true)
    (Hsep : ∀ i j, i + 2 ≤ j → withinDist (p j) (p i) (R * (8 / 10)) = false) :
    (runChain rand (2 * N - 1)
        (explodeBody rand 0 (chainBody p R 1)
          ⟨chainWorld p R 1 N, [], [], 0⟩)).explosions
      = List.range' 1 N ∧
    (List.range' 1 N).length = N ∧
    (List.range' 1 N).Nodup ∧
    (runChain rand (2 * N - 1)
        (explodeBody rand 0 (chainBody p R 1)
          ⟨chainWorld p R 1 N, [], [], 0⟩)).world = [] := by
  obtain ⟨m, rfl⟩ : ∃ m, N = m + 1 := ⟨N - 1, by omega⟩
  have hRne : R ≠ 0 := ne_of_gt hR
  have hfilter : (chainWorld p R 1 (m + 1)).filter
      (fun b => b.id != 1) = chainWorld p R 2 m := by
    rw [chainWorld_succ, List.filter_cons]
    rw [show ((chainBody p R 1).id != 1) = false by simp [chainBody]]
    simp only [Bool.false_eq_true, if_false]
    exact chainWorld_filter_ne p R m 2 1 (by omega)
  have hignite : explodeBody rand 0 (chainBody p R 1)
      ⟨chainWorld p R 1 (m + 1), [], [], 0⟩
      = ⟨chainWorld p R 2 m, [⟨(0 : ℚ) + 50, .rescan (p 1) R⟩], [1], 0⟩ := by
    unfold explodeBody
    rw [show (chainBody p R 1).id = 1 from rfl,
      show (chainBody p R 1).pos = p 1 from rfl,
      show (chainBody p R 1).eRadius = some R from rfl,
      show jsFalsyOr (some R) 200 = R by simp [jsFalsyOr, hRne]]
    rw [execChainTask_explode]
    simp only [hfilter]
    simp
  rw [hignite]
  have hfuel : 2 * (m + 1) - 1 = 2 * m + 1 := by omega
  rw [hfuel]
  have hrun := runChain_chain_segment p R rand hR Hadj Hsep m 1
    ((0 : ℚ) + 50) [1] 0
  rw [show (1 : ℕ) + 1 = 2 from rfl] at hrun
  rw [hrun]
  refine ⟨?_, by simp, List.nodup_range' 1 (m + 1) 1 (by norm_num), by rfl⟩
  rw [show ([1] : List ℕ) ++ List.range' 2 m = List.range' 1 (m + 1) from
    (List.range'_succ 1 m 1).symm]

/-- C2 witness for the amended theorem: a strictly separated chain of two
barrels 100 units apart with radius 200 (adjacent distance `100 < 160`,
non-adjacent distances `≥ 200 > 160`), all random delays zero: igniting
the first barrel explodes bodies `[1, 2]`, once each, and empties the
world. -/
theorem explodeBody_chain_exact_count_witness :
    (runChain (fun _ => (0 : ℚ)) (2 * 2 - 1)
        (explodeBody (fun _ => (0 : ℚ)) 0
          (chainBody (fun i : ℕ => ((100 * i : ℚ), (0 : ℚ))) 200 1)
          ⟨chainWorld (fun i : ℕ => ((100 * i : ℚ), (0 : ℚ))) 200 1 2,
           [], [], 0⟩)).explosions
      = List.range' 1 2 ∧
    (List.range' 1 2).length = 2 ∧
    (List.range' 1 2).Nodup ∧
    (runChain (fun _ => (0 : ℚ)) (2 * 2 - 1)
        (explodeBody (fun _ => (0 : ℚ)) 0
          (chainBody (fun i : ℕ => ((100 * i : ℚ), (0 : ℚ))) 200 1)
          ⟨chainWorld (fun i : ℕ => ((100 * i : ℚ), (0 : ℚ))) 200 1 2,
           [], [], 0⟩)).world = [] :=
  explodeBody_chain_exact_count (fun i : ℕ => ((100 * i : ℚ), (0 : ℚ)))
    200 (fun _ => (0 : ℚ)) 2 (by norm_num) (by norm_num)
    (by
      intro i
      simp only [withinDist, dist2, decide_eq_true_eq]
      constructor
      · norm_num
      · push_cast
        ring_nf
        norm_num)
    (by
      intro i j h
      simp only [withinDist, dist2, decide_eq_false_iff_not]
      rintro ⟨-, hlt⟩
      have h2 : (i : ℚ) + 2 ≤ (j : ℚ) := by exact_mod_cast h
      nlinarith [hlt, h2])

/-- C10 witness: the unrecognized tag `"wibble"` spawns a box. -/
theorem createObject_fallback_box_witness :
    createObject "wibble" 100 100 noOptions 0 0
      = createBox 100 100 noOptions 0 0 ∧
    (toolSpawn "wibble" (100, 100) noOptions 0 0 []).1
      = [] ++ [createBox 100 100 noOptions 0 0] ∧
    (toolSpawn "wibble" (100, 100) noOptions 0 0 []).2
      = ⟨"wibble", (100, 100), (createBox 100 100 noOptions 0 0).customId⟩ :=
  createObject_fallback_box "wibble" 100 100 noOptions 0 0 [] (by decide)
